import Mathlib

/-!
Shallow embedding of `lib/ansible/modules/network/aci/mso_schema_template_bd.py`:
the Ansible module that manages Bridge Domains (BDs) inside Cisco ACI
Multi-Site schema templates.  The module's `main` function is translated as a
pure function from the fetched document and the validated parameters to an
observable exit record.  The `MSOModule` collaborators that live outside this
repository snapshot (`module_utils/network/aci/mso.py`) are modelled from the
specification; each such definition's doc comment says so explicitly.
-/

namespace MsoBD

/-- A subnet entry of a Bridge Domain after sanitization: the CIDR `ip` is
mandatory, the remaining fields are optional (an absent key is `none`). -/
structure Subnet where
  ip : String
  description : Option String := none
  scope : Option String := none
  shared : Option Bool := none
  noDefaultGateway : Option Bool := none
deriving DecidableEq, Repr

/-- A raw subnet as supplied by the caller through the `subnets` option:
every field, including `ip`, may be absent. -/
structure RawSubnet where
  ip : Option String := none
  description : Option String := none
  scope : Option String := none
  shared : Option Bool := none
  no_default_gateway : Option Bool := none
deriving DecidableEq, Repr

/-- A Bridge Domain object as stored in a template and as built by `main`'s
payload: a JSON object with a mandatory `name` and optional keys; an absent
(or null-stripped) key is `none`. -/
structure BDObj where
  name : String
  displayName : Option String := none
  intersiteBumTraffic : Option Bool := none
  optimizeWanBandwidth : Option Bool := none
  l2UnknownUnicast : Option String := none
  l2Stretch : Option Bool := none
  l3MCast : Option Bool := none
  subnets : Option (List Subnet) := none
  vrfRef : Option String := none
deriving DecidableEq, Repr

/-- A template of a schema: a named container with its `bds` object list and,
for reference resolution, the names of the VRFs it holds. -/
structure Template where
  name : String
  bds : List BDObj := []
  vrfs : List String := []
deriving DecidableEq, Repr

/-- A schema: `id` (used in request paths), `displayName` (used for lookup)
and the template list. -/
structure Schema where
  id : String
  displayName : String
  templates : List Template := []
deriving DecidableEq, Repr

/-- The full document held by the controller: the list of schemas. -/
abbrev Document := List Schema

/-- A cross-object reference as supplied in the `vrf` option
(`mso_reference_spec`): a name plus an optional owning schema/template. -/
structure Ref where
  name : String
  schema : Option String := none
  template : Option String := none
deriving DecidableEq, Repr

/-- The `state` parameter of the module. -/
inductive MState
  | absent
  | present
  | query
deriving DecidableEq, Repr

/-- The validated module parameters (the module's `argument_spec`), plus the
Ansible check-mode flag. -/
structure Params where
  schema : String
  template : String
  bd : Option String := none
  display_name : Option String := none
  intersite_bum_traffic : Option Bool := none
  optimize_wan_bandwidth : Option Bool := none
  layer2_stretch : Option Bool := none
  layer2_unknown_unicast : Option String := none
  layer3_multicast : Option Bool := none
  vrf : Option Ref := none
  subnets : Option (List RawSubnet) := none
  state : MState := MState.present
  check_mode : Bool := false
deriving DecidableEq, Repr

/-- The failure taxonomy.  The schema/template/BD messages correspond to the
literal `fail_json` calls of the module; the required-parameter, reference and
subnet failures come from collaborators modelled from the spec. -/
inductive MsoError
  | missingRequired (missing : List String)
  | schemaNotFound (schema : String)
  | templateNotFound (template : String) (existing : List String)
  | objectNotFound (bd : String)
  | referenceNotFound (kind : String) (name : String)
  | invalidSubnet
deriving DecidableEq, Repr

/-- The human-readable message of each failure (`fail_json`'s `msg`): the
schema, template and BD messages are translated from the module's format
strings. -/
def MsoError.msg : MsoError → String
  | MsoError.missingRequired missing =>
      "state requires the following: " ++ String.intercalate ", " missing
  | MsoError.schemaNotFound s =>
      "Provided schema \x27" ++ s ++ "\x27 does not exist"
  | MsoError.templateNotFound t existing =>
      "Provided template \x27" ++ t ++ "\x27 does not exist. Existing templates: "
        ++ String.intercalate ", " existing
  | MsoError.objectNotFound bd => "BD \x27" ++ bd ++ "\x27 not found"
  | MsoError.referenceNotFound kind nm =>
      "Provided " ++ kind ++ " \x27" ++ nm ++ "\x27 does not exist"
  | MsoError.invalidSubnet => "Subnet requires an ip address"

/-- One JSON-Patch operation as built by the module. -/
inductive PatchOp
  | add (path : String) (value : BDObj)
  | replace (path : String) (value : BDObj)
  | remove (path : String)
deriving DecidableEq, Repr

/-- The value of `mso.existing`/`mso.previous`: initially the empty dict,
possibly a single BD object, or (for query-all) the full list. -/
inductive CurrentVal
  | emptyObj
  | obj (b : BDObj)
  | list (l : List BDObj)
deriving DecidableEq, Repr

/-- The observable outcome of one invocation: either a failure
(`error = some e`, nothing submitted) or an exit record with the reported
`changed` flag, the previous/current state, the patch operation list that was
built (if any) and the submission actually sent over the network (if any). -/
structure Result where
  error : Option MsoError := none
  changed : Bool := false
  previous : CurrentVal := CurrentVal.emptyObj
  current : CurrentVal := CurrentVal.emptyObj
  operation : Option (List PatchOp) := none
  submitted : Option (String × List PatchOp) := none
deriving DecidableEq, Repr

/-- Modelled from the spec: `mso.fail_json` (module_utils, not under src/)
aborts the invocation with a message; every failure path of this module is
reached before any submission, so a failed result carries none. -/
def failResult (e : MsoError) : Result :=
  { error := some e }

/-- Modelled from the spec: `mso.exit_json` (module_utils, not under src/)
reports `changed` exactly when a mutating state (`absent`/`present`) ends with
a current state different from the previous one; `query` never reports a
change. -/
def exit_json (state : MState) (previous current : CurrentVal)
    (operation : Option (List PatchOp))
    (submitted : Option (String × List PatchOp)) : Result :=
  { error := none
    changed := decide (state ≠ MState.query ∧ previous ≠ current)
    previous := previous
    current := current
    operation := operation
    submitted := submitted }

/-- Modelled from the spec: `mso.get_obj('schemas', displayName=schema)`
(module_utils, not under src/) looks the schema up by display name, yielding
the first match if any. -/
def get_obj (doc : Document) (displayName : String) : Option Schema :=
  doc.find? (fun s => s.displayName == displayName)

/-- `templates = [t['name'] for t in schema_obj['templates']]` followed by
`templates.index(template)`: the first template with the given name. -/
def findTemplate (schema_obj : Schema) (template : String) : Option Template :=
  schema_obj.templates.find? (fun t => t.name == template)

/-- `bds = [b['name'] for b in ...]`, `bd in bds`, `bds.index(bd)`: the first
BD entry with the requested name, when a name was given at all. -/
def findBD (tmpl : Template) (bd : Option String) : Option BDObj :=
  match bd with
  | some b => tmpl.bds.find? (fun x => x.name == b)
  | none => none

/-- `mso.existing` as set by the lookup: the found object, or the initial
empty dict. -/
def toCurrent : Option BDObj → CurrentVal
  | some b => CurrentVal.obj b
  | none => CurrentVal.emptyObj

/-- Modelled from the spec: the owning schema of a reference defaults to the
current schema; a named owning schema is looked up by display name and
contributes its id. -/
def resolveRefSchemaId (doc : Document) (ref : Ref) (schema_id : String) :
    Option String :=
  match ref.schema with
  | none => some schema_id
  | some s => Option.map Schema.id (get_obj doc s)

/-- Modelled from the spec: the template holding the reference target, inside
the schema with the given id. -/
def refTarget (doc : Document) (sid tname : String) : Option Template :=
  (doc.find? (fun sc => sc.id == sid)).bind
    (fun sc => sc.templates.find? (fun t => t.name == tname))

/-- Modelled from the spec: `mso.make_reference(vrf, 'vrf', schema_id,
template)` (module_utils, not under src/) resolves a reference sub-object — a
name plus an optional owning schema/template, defaulting to the current ones —
to a concrete target reference string, failing with `ReferenceNotFound` when
the named target cannot be located in the target schema/template. -/
def make_reference (doc : Document) (ref : Ref) (schema_id template : String) :
    Except MsoError String :=
  match resolveRefSchemaId doc ref schema_id with
  | none => Except.error (MsoError.referenceNotFound "vrf" ref.name)
  | some sid =>
    match Option.map Template.vrfs (refTarget doc sid (ref.template.getD template)) with
    | none => Except.error (MsoError.referenceNotFound "vrf" ref.name)
    | some vrfs =>
      if ref.name ∈ vrfs then
        Except.ok ("/schemas/" ++ sid ++ "/templates/" ++ ref.template.getD template
          ++ "/vrfs/" ++ ref.name)
      else Except.error (MsoError.referenceNotFound "vrf" ref.name)

/-- Modelled from the spec: `mso.make_subnets` (module_utils, not under src/)
normalizes each subnet entry independently; the CIDR `ip` is mandatory and its
absence fails with `InvalidSubnet`.  An absent `subnets` option stays absent. -/
def make_subnets : Option (List RawSubnet) → Except MsoError (Option (List Subnet))
  | none => Except.ok none
  | some l =>
    Except.map some (l.mapM (fun s =>
      match s.ip with
      | none => Except.error MsoError.invalidSubnet
      | some ip => Except.ok
          { ip := ip
            description := s.description
            scope := s.scope
            shared := s.shared
            noDefaultGateway := s.no_default_gateway }))

instance {ε α : Type} [DecidableEq ε] [DecidableEq α] :
    DecidableEq (Except ε α) := fun x y =>
  match x, y with
  | Except.error a, Except.error b =>
    if h : a = b then isTrue (h ▸ rfl)
    else isFalse (fun hh => h (Except.error.inj hh))
  | Except.error _, Except.ok _ => isFalse (fun hh => by cases hh)
  | Except.ok _, Except.error _ => isFalse (fun hh => by cases hh)
  | Except.ok a, Except.ok b =>
    if h : a = b then isTrue (h ▸ rfl)
    else isFalse (fun hh => h (Except.ok.inj hh))

/-- The second value when it is set, otherwise the first: one key of a Python
`dict.update` whose updates had their null values stripped. -/
def updOpt {α : Type} (old new : Option α) : Option α :=
  match new with
  | some v => some v
  | none => old

/-- Modelled from the spec: `mso.sanitize(payload, collate=True,
unwanted=['bdRef', 'vrfRef'])` (module_utils, not under src/) builds the
proposed/sent object from the sparse payload: fields the caller left unset
(null) are stripped and — the only-set-fields-update rule — do not override
the existing object's values, while reference fields are refreshed from the
freshly resolved reference rather than inherited from the existing object.
The result is recorded as both `mso.proposed` and `mso.sent`. -/
def sanitize (existing : Option BDObj) (pl : BDObj) : BDObj :=
  match existing with
  | none => pl
  | some e =>
    { name := pl.name
      displayName := updOpt e.displayName pl.displayName
      intersiteBumTraffic := updOpt e.intersiteBumTraffic pl.intersiteBumTraffic
      optimizeWanBandwidth := updOpt e.optimizeWanBandwidth pl.optimizeWanBandwidth
      l2UnknownUnicast := updOpt e.l2UnknownUnicast pl.l2UnknownUnicast
      l2Stretch := updOpt e.l2Stretch pl.l2Stretch
      l3MCast := updOpt e.l3MCast pl.l3MCast
      subnets := updOpt e.subnets pl.subnets
      vrfRef := pl.vrfRef }

/-- The literal `payload = dict(...)` of the module, including the preceding
display-name defaulting: `if display_name is None and not mso.existing:
display_name = bd`. -/
def buildPayload (p : Params) (bd : String) (existingBD : Option BDObj)
    (vrf_ref : String) (subs : Option (List Subnet)) : BDObj :=
  { name := bd
    displayName :=
      if p.display_name = none ∧ existingBD = none then some bd else p.display_name
    intersiteBumTraffic := p.intersite_bum_traffic
    optimizeWanBandwidth := p.optimize_wan_bandwidth
    l2UnknownUnicast := p.layer2_unknown_unicast
    l2Stretch := p.layer2_stretch
    l3MCast := p.layer3_multicast
    subnets := subs
    vrfRef := some vrf_ref }

/-- The one patch operation built in the `present` branch: `replace` at the
named path when the BD exists, `add` at the append path otherwise; the value
is `mso.sent`. -/
def presentOps (template bd : String) (existingBD : Option BDObj)
    (sent : BDObj) : List PatchOp :=
  match existingBD with
  | some _ => [PatchOp.replace ("/templates/" ++ template ++ "/bds/" ++ bd) sent]
  | none => [PatchOp.add ("/templates/" ++ template ++ "/bds/-") sent]

/-- The `state == 'query'` branch of `main`. -/
def stQuery (tmpl : Template) (bd : Option String) (existingBD : Option BDObj) :
    Result :=
  match bd with
  | none =>
    exit_json MState.query CurrentVal.emptyObj (CurrentVal.list tmpl.bds) none none
  | some b =>
    match existingBD with
    | none => failResult (MsoError.objectNotFound b)
    | some x => exit_json MState.query CurrentVal.emptyObj (CurrentVal.obj x) none none

/-- The `state == 'absent'` branch of `main`. -/
def stAbsent (check_mode : Bool) (path template bd : String)
    (existingBD : Option BDObj) : Result :=
  match existingBD with
  | none =>
    exit_json MState.absent CurrentVal.emptyObj CurrentVal.emptyObj none none
  | some b =>
    exit_json MState.absent (CurrentVal.obj b) CurrentVal.emptyObj
      (some [PatchOp.remove ("/templates/" ++ template ++ "/bds/" ++ bd)])
      (if check_mode then none
       else some (path, [PatchOp.remove ("/templates/" ++ template ++ "/bds/" ++ bd)]))

/-- The `state == 'present'` branch of `main`. -/
def stPresent (doc : Document) (p : Params) (schema_id path template : String)
    (existingBD : Option BDObj) (bd : String) (vrf : Ref) : Result :=
  match make_reference doc vrf schema_id template with
  | Except.error e => failResult e
  | Except.ok vrf_ref =>
    match make_subnets p.subnets with
    | Except.error e => failResult e
    | Except.ok subs =>
      let sent := sanitize existingBD (buildPayload p bd existingBD vrf_ref subs)
      exit_json MState.present (toCurrent existingBD) (CurrentVal.obj sent)
        (some (presentOps template bd existingBD sent))
        (if p.check_mode then none else some (path, presentOps template bd existingBD sent))

/-- The module's `main`, as a function from the fetched document and the
parameters to the observable result.  The two leading guards are
`AnsibleModule`'s `required_if` checks; the duplicated inner guards are the
(unreachable) completeness cases of the same checks. -/
def main (doc : Document) (p : Params) : Result :=
  if p.state = MState.absent ∧ p.bd = none then
    failResult (MsoError.missingRequired ["bd"])
  else if p.state = MState.present ∧ (p.bd = none ∨ p.vrf = none) then
    failResult (MsoError.missingRequired ["bd", "vrf"])
  else
    match get_obj doc p.schema with
    | none => failResult (MsoError.schemaNotFound p.schema)
    | some schema_obj =>
      match findTemplate schema_obj p.template with
      | none =>
        failResult (MsoError.templateNotFound p.template
          (schema_obj.templates.map Template.name))
      | some tmpl =>
        match p.state with
        | MState.query => stQuery tmpl p.bd (findBD tmpl p.bd)
        | MState.absent =>
          match p.bd with
          | some bd =>
            stAbsent p.check_mode ("schemas/" ++ schema_obj.id) p.template bd
              (findBD tmpl p.bd)
          | none => failResult (MsoError.missingRequired ["bd"])
        | MState.present =>
          match p.bd, p.vrf with
          | some bd, some vrf =>
            stPresent doc p schema_obj.id ("schemas/" ++ schema_obj.id) p.template
              (findBD tmpl p.bd) bd vrf
          | _, _ => failResult (MsoError.missingRequired ["bd", "vrf"])

/-- The caller-side validation contract of the spec (section 6): required
parameter combinations per state hold before the core runs.  These are
exactly the module's `required_if` rules. -/
@[reducible] def reqOk (p : Params) : Prop :=
  (p.state = MState.absent → p.bd ≠ none) ∧
  (p.state = MState.present → p.bd ≠ none ∧ p.vrf ≠ none)

/-- Modelled from the spec: the controller applies one patch operation to a
template's bd list.  An `add` at the trailing-dash path appends its value; a
`replace` replaces the entries carrying the value's name (the backend resolves
the path by name, not index); a `remove` drops the entries whose name-addressed
path is the operation's path. -/
def applyOpToBds (template : String) (bds : List BDObj) : PatchOp → List BDObj
  | PatchOp.add _ v => bds ++ [v]
  | PatchOp.replace _ v => bds.map (fun b => if b.name == v.name then v else b)
  | PatchOp.remove path =>
    bds.filter (fun b => !(path == "/templates/" ++ template ++ "/bds/" ++ b.name))

/-- Modelled from the spec: patch application inside one template (selected by
name); other templates are untouched. -/
def patchTemplate (templateName : String) (ops : List PatchOp) (t : Template) :
    Template :=
  if t.name == templateName then
    { t with bds := ops.foldl (applyOpToBds templateName) t.bds }
  else t

/-- Modelled from the spec: patch application inside one schema (selected by
display name); other schemas are untouched. -/
def patchSchema (schemaName templateName : String) (ops : List PatchOp)
    (s : Schema) : Schema :=
  if s.displayName == schemaName then
    { s with templates := s.templates.map (patchTemplate templateName ops) }
  else s

/-- Modelled from the spec: the remote controller atomically applies a
submitted patch to the document, inside the addressed schema and template. -/
def applyBDPatch (doc : Document) (schemaName templateName : String)
    (ops : List PatchOp) : Document :=
  doc.map (patchSchema schemaName templateName ops)

/-! ## Sample inputs used by the witnesses and counterexamples -/

/-- A document with one schema, one template, one VRF and no BD yet. -/
def sampleTemplate : Template := { name := "Template 1", bds := [], vrfs := ["VRF1"] }

def sampleSchema : Schema :=
  { id := "sid1", displayName := "Schema 1", templates := [sampleTemplate] }

def sampleDoc : Document := [sampleSchema]

/-- `state=present, bd=BD1, vrf=VRF1` against `Schema 1`/`Template 1`. -/
def sampleParams : Params :=
  { schema := "Schema 1", template := "Template 1", bd := some "BD1",
    vrf := some { name := "VRF1" }, state := MState.present }

/-- The same `present` parameters, used against the already-converged
document `noopDoc`. -/
def noopParams : Params :=
  { schema := "Schema 1", template := "Template 1", bd := some "BD1",
    vrf := some { name := "VRF1" }, state := MState.present }

/-- A BD already in the exact state the sample `present` payload proposes. -/
def noopBD : BDObj :=
  { name := "BD1", displayName := some "BD1",
    vrfRef := some "/schemas/sid1/templates/Template 1/vrfs/VRF1" }

def noopTemplate : Template :=
  { name := "Template 1", bds := [noopBD], vrfs := ["VRF1"] }

def noopSchema : Schema :=
  { id := "sid1", displayName := "Schema 1", templates := [noopTemplate] }

def noopDoc : Document := [noopSchema]

/-- A template with two BD entries sharing the name `BD1`. -/
def dupTemplate : Template :=
  { name := "Template 1",
    bds := [{ name := "BD1", displayName := some "first entry" },
            { name := "BD1", displayName := some "second entry" }],
    vrfs := ["VRF1"] }

def dupSchema : Schema :=
  { id := "sid1", displayName := "Schema 1", templates := [dupTemplate] }

def dupDoc : Document := [dupSchema]

/-! ## Basic lemmas about the embedding -/

theorem updOpt_some {α : Type} (a : Option α) (v : α) :
    updOpt a (some v) = some v := rfl

theorem updOpt_none {α : Type} (a : Option α) : updOpt a none = a := rfl

theorem updOpt_updOpt {α : Type} (a b : Option α) :
    updOpt (updOpt a b) b = updOpt a b := by
  cases b <;> rfl

theorem updOpt_self {α : Type} (a : Option α) : updOpt a a = a := by
  cases a <;> rfl

theorem guards_pass (p : Params) (hreq : reqOk p) :
    ¬(p.state = MState.absent ∧ p.bd = none) ∧
    ¬(p.state = MState.present ∧ (p.bd = none ∨ p.vrf = none)) := by
  obtain ⟨h1, h2⟩ := hreq
  refine ⟨fun h => h1 h.1 h.2, fun h => ?_⟩
  obtain ⟨hb, hv⟩ := h2 h.1
  cases h.2 with
  | inl hh => exact hb hh
  | inr hh => exact hv hh

theorem main_schema_missing (doc : Document) (p : Params) (hreq : reqOk p)
    (hs : get_obj doc p.schema = none) :
    main doc p = failResult (MsoError.schemaNotFound p.schema) := by
  obtain ⟨g1, g2⟩ := guards_pass p hreq
  simp [main, hs, g1, g2]

theorem main_template_missing (doc : Document) (p : Params) (schema_obj : Schema)
    (hreq : reqOk p)
    (hs : get_obj doc p.schema = some schema_obj)
    (ht : findTemplate schema_obj p.template = none) :
    main doc p = failResult (MsoError.templateNotFound p.template
      (schema_obj.templates.map Template.name)) := by
  obtain ⟨g1, g2⟩ := guards_pass p hreq
  simp [main, hs, ht, g1, g2]

theorem main_query_eq (doc : Document) (p : Params) (schema_obj : Schema)
    (tmpl : Template)
    (hst : p.state = MState.query)
    (hs : get_obj doc p.schema = some schema_obj)
    (ht : findTemplate schema_obj p.template = some tmpl) :
    main doc p = stQuery tmpl p.bd (findBD tmpl p.bd) := by
  simp [main, hst, hs, ht]

theorem main_absent_eq (doc : Document) (p : Params) (schema_obj : Schema)
    (tmpl : Template) (bd : String)
    (hst : p.state = MState.absent)
    (hbd : p.bd = some bd)
    (hs : get_obj doc p.schema = some schema_obj)
    (ht : findTemplate schema_obj p.template = some tmpl) :
    main doc p = stAbsent p.check_mode ("schemas/" ++ schema_obj.id) p.template bd
      (findBD tmpl (some bd)) := by
  simp [main, hst, hbd, hs, ht]

theorem main_present_eq (doc : Document) (p : Params) (schema_obj : Schema)
    (tmpl : Template) (bd : String) (vrf : Ref)
    (hst : p.state = MState.present)
    (hbd : p.bd = some bd)
    (hvrf : p.vrf = some vrf)
    (hs : get_obj doc p.schema = some schema_obj)
    (ht : findTemplate schema_obj p.template = some tmpl) :
    main doc p = stPresent doc p schema_obj.id ("schemas/" ++ schema_obj.id)
      p.template (findBD tmpl (some bd)) bd vrf := by
  simp [main, hst, hbd, hvrf, hs, ht]

theorem stPresent_eq (doc : Document) (p : Params)
    (schema_id path template : String) (ex : Option BDObj) (bd : String)
    (vrf : Ref) (vrf_ref : String) (subs : Option (List Subnet))
    (href : make_reference doc vrf schema_id template = Except.ok vrf_ref)
    (hsub : make_subnets p.subnets = Except.ok subs) :
    stPresent doc p schema_id path template ex bd vrf =
      exit_json MState.present (toCurrent ex)
        (CurrentVal.obj (sanitize ex (buildPayload p bd ex vrf_ref subs)))
        (some (presentOps template bd ex (sanitize ex (buildPayload p bd ex vrf_ref subs))))
        (if p.check_mode then none
         else some (path,
           presentOps template bd ex (sanitize ex (buildPayload p bd ex vrf_ref subs)))) := by
  simp [stPresent, href, hsub]

/-- Every error `make_reference` can return is a `ReferenceNotFound` for the
reference's own name. -/
theorem make_reference_error (doc : Document) (ref : Ref)
    (schema_id template : String) (e : MsoError)
    (href : make_reference doc ref schema_id template = Except.error e) :
    e = MsoError.referenceNotFound "vrf" ref.name := by
  unfold make_reference at href
  rcases h1 : resolveRefSchemaId doc ref schema_id with _ | sid <;>
    simp only [h1] at href
  · injection href with h
    exact h.symm
  · rcases h2 : Option.map Template.vrfs (refTarget doc sid (ref.template.getD template)) with
      _ | vrfs <;> simp only [h2] at href
    · injection href with h
      exact h.symm
    · by_cases hm : ref.name ∈ vrfs
      · rw [if_pos hm] at href
        cases href
      · rw [if_neg hm] at href
        injection href with h
        exact h.symm

/-- Inversion of a successful `present` run: all lookups succeeded, the
reference and the subnets resolved, and the result is the `present` exit
record. -/
theorem main_present_success (doc : Document) (p : Params)
    (hst : p.state = MState.present) (herr : (main doc p).error = none) :
    ∃ schema_obj tmpl bd vrf vrf_ref subs,
      get_obj doc p.schema = some schema_obj ∧
      findTemplate schema_obj p.template = some tmpl ∧
      p.bd = some bd ∧ p.vrf = some vrf ∧
      make_reference doc vrf schema_obj.id p.template = Except.ok vrf_ref ∧
      make_subnets p.subnets = Except.ok subs ∧
      main doc p =
        exit_json MState.present (toCurrent (findBD tmpl (some bd)))
          (CurrentVal.obj (sanitize (findBD tmpl (some bd))
            (buildPayload p bd (findBD tmpl (some bd)) vrf_ref subs)))
          (some (presentOps p.template bd (findBD tmpl (some bd))
            (sanitize (findBD tmpl (some bd))
              (buildPayload p bd (findBD tmpl (some bd)) vrf_ref subs))))
          (if p.check_mode then none
           else some ("schemas/" ++ schema_obj.id,
             presentOps p.template bd (findBD tmpl (some bd))
               (sanitize (findBD tmpl (some bd))
                 (buildPayload p bd (findBD tmpl (some bd)) vrf_ref subs)))) := by
  rcases hbd : p.bd with _ | bd
  · exfalso
    have hm : main doc p = failResult (MsoError.missingRequired ["bd", "vrf"]) := by
      simp [main, hst, hbd]
    rw [hm] at herr
    simp [failResult] at herr
  rcases hvrf : p.vrf with _ | vrf
  · exfalso
    have hm : main doc p = failResult (MsoError.missingRequired ["bd", "vrf"]) := by
      simp [main, hst, hbd, hvrf]
    rw [hm] at herr
    simp [failResult] at herr
  rcases hs : get_obj doc p.schema with _ | schema_obj
  · exfalso
    have hm : main doc p = failResult (MsoError.schemaNotFound p.schema) := by
      simp [main, hst, hbd, hvrf, hs]
    rw [hm] at herr
    simp [failResult] at herr
  rcases ht : findTemplate schema_obj p.template with _ | tmpl
  · exfalso
    have hm := main_template_missing doc p schema_obj
      ⟨(fun h => by simp [hst] at h), (fun _ => ⟨by simp [hbd], by simp [hvrf]⟩)⟩ hs ht
    rw [hm] at herr
    simp [failResult] at herr
  have hmain := main_present_eq doc p schema_obj tmpl bd vrf hst hbd hvrf hs ht
  rcases href : make_reference doc vrf schema_obj.id p.template with e | vrf_ref
  · exfalso
    rw [hmain] at herr
    simp [stPresent, href, failResult] at herr
  rcases hsub : make_subnets p.subnets with e | subs
  · exfalso
    rw [hmain] at herr
    simp [stPresent, href, hsub, failResult] at herr
  refine ⟨schema_obj, tmpl, bd, vrf, vrf_ref, subs, rfl, ht, rfl, rfl, href, rfl, ?_⟩
  rw [hmain]
  exact stPresent_eq doc p schema_obj.id _ p.template _ bd vrf vrf_ref subs href hsub

/-! ## The claims -/

/-- C1, counterexample: an invocation with `state=present` whose existing
object is already structurally equal to the proposed sanitized payload
(`previous = current`) succeeds with `changed=false`, yet the claim's
"makes no network submission call" is false — the module still submits the
patch. -/
theorem C1_counterexample :
    noopParams.state = MState.present ∧
    noopParams.check_mode = false ∧
    (main noopDoc noopParams).error = none ∧
    (main noopDoc noopParams).previous = CurrentVal.obj noopBD ∧
    (main noopDoc noopParams).current = CurrentVal.obj noopBD ∧
    (main noopDoc noopParams).changed = false ∧
    (main noopDoc noopParams).submitted ≠ none := by
  decide

/-- C1, amended: for every `state=present` invocation in which the existing
object equals the proposed sanitized payload, the operation returns success
with `changed=false`, but a patch operation is still built and — outside
check mode — still submitted over the network. -/
theorem C1_noop_reports_unchanged (doc : Document) (p : Params)
    (hst : p.state = MState.present)
    (herr : (main doc p).error = none)
    (hnoop : (main doc p).previous = (main doc p).current) :
    (main doc p).changed = false ∧
    (main doc p).operation ≠ none ∧
    (p.check_mode = false → (main doc p).submitted ≠ none) := by
  obtain ⟨so, tm, bd, vrf, vr, subs, hs, ht, hbd, hvrf, href, hsub, hmain⟩ :=
    main_present_success doc p hst herr
  rw [hmain] at hnoop ⊢
  refine ⟨?_, ?_, ?_⟩
  · simp only [exit_json] at hnoop ⊢
    simp [hnoop]
  · simp [exit_json]
  · intro hcm
    simp [exit_json, hcm]

/-- C1, witness for the amended theorem at the concrete no-op input. -/
theorem C1_witness :
    noopParams.state = MState.present ∧
    (main noopDoc noopParams).error = none ∧
    (main noopDoc noopParams).previous = (main noopDoc noopParams).current ∧
    ((main noopDoc noopParams).changed = false ∧
     (main noopDoc noopParams).operation ≠ none ∧
     (noopParams.check_mode = false → (main noopDoc noopParams).submitted ≠ none)) :=
  ⟨rfl, by decide, by decide,
    C1_noop_reports_unchanged noopDoc noopParams rfl (by decide) (by decide)⟩

/-- C2: for every successful `state=present` invocation, exactly one patch
operation is built — `replace` at the name-addressed bds path when the BD
already exists, otherwise `add` at the trailing-dash append path — and in
both cases its value is the sanitized payload. -/
theorem C2_present_patch (doc : Document) (p : Params) (schema_obj : Schema)
    (tmpl : Template) (bd : String)
    (hst : p.state = MState.present)
    (hs : get_obj doc p.schema = some schema_obj)
    (ht : findTemplate schema_obj p.template = some tmpl)
    (hbd : p.bd = some bd)
    (herr : (main doc p).error = none) :
    ∃ vrf vrf_ref subs value,
      p.vrf = some vrf ∧
      make_reference doc vrf schema_obj.id p.template = Except.ok vrf_ref ∧
      make_subnets p.subnets = Except.ok subs ∧
      value = sanitize (findBD tmpl (some bd))
        (buildPayload p bd (findBD tmpl (some bd)) vrf_ref subs) ∧
      (main doc p).current = CurrentVal.obj value ∧
      ((findBD tmpl (some bd)).isSome = true →
        (main doc p).operation = some
          [PatchOp.replace ("/templates/" ++ p.template ++ "/bds/" ++ bd) value]) ∧
      (findBD tmpl (some bd) = none →
        (main doc p).operation = some
          [PatchOp.add ("/templates/" ++ p.template ++ "/bds/-") value]) := by
  obtain ⟨so, tm, bd2, vrf, vr, subs, hs2, ht2, hbd2, hvrf2, href, hsub, hmain⟩ :=
    main_present_success doc p hst herr
  have hso : schema_obj = so := Option.some.inj (hs.symm.trans hs2)
  subst hso
  have htm : tmpl = tm := Option.some.inj (ht.symm.trans ht2)
  subst htm
  have hb : bd = bd2 := Option.some.inj (hbd.symm.trans hbd2)
  subst hb
  refine ⟨vrf, vr, subs, _, hvrf2, href, hsub, rfl, ?_, ?_, ?_⟩
  · rw [hmain]
    rfl
  · intro hex
    rw [hmain]
    rcases hfb : findBD tmpl (some bd) with _ | b
    · rw [hfb] at hex; cases hex
    · simp [exit_json, presentOps, hfb]
  · intro hex
    rw [hmain]
    simp [exit_json, presentOps, hex]

/-- C2, witness: the sample document (no BD yet) takes the `add` branch. -/
theorem C2_witness :
    sampleParams.state = MState.present ∧
    get_obj sampleDoc sampleParams.schema = some sampleSchema ∧
    findTemplate sampleSchema sampleParams.template = some sampleTemplate ∧
    sampleParams.bd = some "BD1" ∧
    (main sampleDoc sampleParams).error = none ∧
    (∃ vrf vrf_ref subs value,
      sampleParams.vrf = some vrf ∧
      make_reference sampleDoc vrf sampleSchema.id sampleParams.template =
        Except.ok vrf_ref ∧
      make_subnets sampleParams.subnets = Except.ok subs ∧
      value = sanitize (findBD sampleTemplate (some "BD1"))
        (buildPayload sampleParams "BD1" (findBD sampleTemplate (some "BD1")) vrf_ref subs) ∧
      (main sampleDoc sampleParams).current = CurrentVal.obj value ∧
      ((findBD sampleTemplate (some "BD1")).isSome = true →
        (main sampleDoc sampleParams).operation = some
          [PatchOp.replace ("/templates/" ++ sampleParams.template ++ "/bds/" ++ "BD1") value]) ∧
      (findBD sampleTemplate (some "BD1") = none →
        (main sampleDoc sampleParams).operation = some
          [PatchOp.add ("/templates/" ++ sampleParams.template ++ "/bds/-") value])) :=
  ⟨rfl, by decide, by decide, rfl, by decide,
    C2_present_patch sampleDoc sampleParams sampleSchema sampleTemplate "BD1"
      rfl (by decide) (by decide) rfl (by decide)⟩

/-- C3: for every `state=present` invocation, reference resolution happens
before any patch submission: if the VRF reference cannot be resolved, the
invocation fails with `ReferenceNotFound`, no operation is built and nothing
is submitted, leaving the remote document unchanged. -/
theorem C3_reference_failure (doc : Document) (p : Params) (schema_obj : Schema)
    (tmpl : Template) (bd : String) (vrf : Ref) (e : MsoError)
    (hst : p.state = MState.present)
    (hbd : p.bd = some bd)
    (hvrf : p.vrf = some vrf)
    (hs : get_obj doc p.schema = some schema_obj)
    (ht : findTemplate schema_obj p.template = some tmpl)
    (href : make_reference doc vrf schema_obj.id p.template = Except.error e) :
    main doc p = failResult e ∧
    (main doc p).submitted = none ∧
    (main doc p).operation = none ∧
    e = MsoError.referenceNotFound "vrf" vrf.name := by
  have hmain := main_present_eq doc p schema_obj tmpl bd vrf hst hbd hvrf hs ht
  rw [hmain]
  refine ⟨?_, ?_, ?_, make_reference_error doc vrf schema_obj.id p.template e href⟩
  · simp [stPresent, href]
  · simp [stPresent, href, failResult]
  · simp [stPresent, href, failResult]

/-- C3, witness: a document whose template holds no VRF named `VRF1`. -/
def noVrfTemplate : Template := { name := "Template 1", bds := [], vrfs := [] }

def noVrfSchema : Schema :=
  { id := "sid1", displayName := "Schema 1", templates := [noVrfTemplate] }

def noVrfDoc : Document := [noVrfSchema]

theorem C3_witness :
    sampleParams.state = MState.present ∧
    sampleParams.bd = some "BD1" ∧
    sampleParams.vrf = some { name := "VRF1" } ∧
    get_obj noVrfDoc sampleParams.schema = some noVrfSchema ∧
    findTemplate noVrfSchema sampleParams.template = some noVrfTemplate ∧
    make_reference noVrfDoc { name := "VRF1" } noVrfSchema.id
      sampleParams.template = Except.error (MsoError.referenceNotFound "vrf" "VRF1") ∧
    (main noVrfDoc sampleParams =
        failResult (MsoError.referenceNotFound "vrf" "VRF1") ∧
      (main noVrfDoc sampleParams).submitted = none ∧
      (main noVrfDoc sampleParams).operation = none ∧
      MsoError.referenceNotFound "vrf" "VRF1" =
        MsoError.referenceNotFound "vrf" (Ref.name { name := "VRF1" })) :=
  ⟨rfl, rfl, rfl, by decide, by decide, by decide,
    C3_reference_failure noVrfDoc sampleParams noVrfSchema
      noVrfTemplate "BD1" { name := "VRF1" }
      (MsoError.referenceNotFound "vrf" "VRF1")
      rfl rfl rfl (by decide) (by decide) (by decide)⟩

/-- C4: for every `state=absent` invocation on an existing schema/template,
if the named BD is absent the run is a no-op (success, `changed=false`, no
operation, no submission); if it is present, exactly one `remove` patch at
`/templates/{template}/bds/{bd}` is built, submitted unless in check mode,
and `changed=true`. -/
theorem C4_absent (doc : Document) (p : Params) (schema_obj : Schema)
    (tmpl : Template) (bd : String)
    (hst : p.state = MState.absent)
    (hbd : p.bd = some bd)
    (hs : get_obj doc p.schema = some schema_obj)
    (ht : findTemplate schema_obj p.template = some tmpl) :
    (findBD tmpl (some bd) = none →
      (main doc p).error = none ∧ (main doc p).changed = false ∧
      (main doc p).current = CurrentVal.emptyObj ∧
      (main doc p).operation = none ∧ (main doc p).submitted = none) ∧
    (∀ b, findBD tmpl (some bd) = some b →
      (main doc p).error = none ∧ (main doc p).changed = true ∧
      (main doc p).current = CurrentVal.emptyObj ∧
      (main doc p).operation =
        some [PatchOp.remove ("/templates/" ++ p.template ++ "/bds/" ++ bd)] ∧
      (main doc p).submitted = (if p.check_mode then none
        else some ("schemas/" ++ schema_obj.id,
          [PatchOp.remove ("/templates/" ++ p.template ++ "/bds/" ++ bd)]))) := by
  have hmain := main_absent_eq doc p schema_obj tmpl bd hst hbd hs ht
  rw [hmain]
  constructor
  · intro hex
    simp [stAbsent, hex, exit_json]
  · intro b hex
    simp [stAbsent, hex, exit_json]

/-- C4, witness: removing the existing `BD1` of the no-op document. -/
def absParams : Params :=
  { schema := "Schema 1", template := "Template 1", bd := some "BD1",
    state := MState.absent }

theorem C4_witness :
    absParams.state = MState.absent ∧
    absParams.bd = some "BD1" ∧
    get_obj noopDoc absParams.schema = some noopSchema ∧
    findTemplate noopSchema absParams.template = some noopTemplate ∧
    ((findBD noopTemplate (some "BD1") = none →
      (main noopDoc absParams).error = none ∧ (main noopDoc absParams).changed = false ∧
      (main noopDoc absParams).current = CurrentVal.emptyObj ∧
      (main noopDoc absParams).operation = none ∧
      (main noopDoc absParams).submitted = none) ∧
    (∀ b, findBD noopTemplate (some "BD1") = some b →
      (main noopDoc absParams).error = none ∧ (main noopDoc absParams).changed = true ∧
      (main noopDoc absParams).current = CurrentVal.emptyObj ∧
      (main noopDoc absParams).operation =
        some [PatchOp.remove ("/templates/" ++ absParams.template ++ "/bds/" ++ "BD1")] ∧
      (main noopDoc absParams).submitted = (if absParams.check_mode then none
        else some ("schemas/" ++ noopSchema.id,
          [PatchOp.remove ("/templates/" ++ absParams.template ++ "/bds/" ++ "BD1")])))) :=
  ⟨rfl, rfl, by decide, by decide,
    C4_absent noopDoc absParams noopSchema
      noopTemplate "BD1" rfl rfl (by decide) (by decide)⟩

/-- C5: for every `state=query` invocation on an existing schema/template, no
operation is built and nothing is ever submitted (`changed=false` as well);
with a BD name that does not exist the run fails with the BD-not-found error;
with an existing name that single object's current state is returned; with no
name the template's full bd list is returned. -/
theorem C5_query (doc : Document) (p : Params) (schema_obj : Schema)
    (tmpl : Template)
    (hst : p.state = MState.query)
    (hs : get_obj doc p.schema = some schema_obj)
    (ht : findTemplate schema_obj p.template = some tmpl) :
    (main doc p).operation = none ∧
    (main doc p).submitted = none ∧
    (main doc p).changed = false ∧
    (p.bd = none → (main doc p).error = none ∧
      (main doc p).current = CurrentVal.list tmpl.bds) ∧
    (∀ bd, p.bd = some bd →
      (findBD tmpl (some bd) = none →
        main doc p = failResult (MsoError.objectNotFound bd)) ∧
      (∀ b, findBD tmpl (some bd) = some b →
        (main doc p).error = none ∧ (main doc p).current = CurrentVal.obj b)) := by
  have hmain := main_query_eq doc p schema_obj tmpl hst hs ht
  rw [hmain]
  rcases hbd : p.bd with _ | bd
  · simp [stQuery, findBD, exit_json]
  · rcases hex : findBD tmpl (some bd) with _ | b
    · simp [stQuery, hex, exit_json, failResult]
    · simp [stQuery, hex, exit_json]

/-- C5, witness: querying the existing `BD1` of the no-op document. -/
def queryParams : Params :=
  { schema := "Schema 1", template := "Template 1", bd := some "BD1",
    state := MState.query }

theorem C5_witness :
    queryParams.state = MState.query ∧
    get_obj noopDoc queryParams.schema = some noopSchema ∧
    findTemplate noopSchema queryParams.template = some noopTemplate ∧
    ((main noopDoc queryParams).operation = none ∧
    (main noopDoc queryParams).submitted = none ∧
    (main noopDoc queryParams).changed = false ∧
    (queryParams.bd = none → (main noopDoc queryParams).error = none ∧
      (main noopDoc queryParams).current = CurrentVal.list noopTemplate.bds) ∧
    (∀ bd, queryParams.bd = some bd →
      (findBD noopTemplate (some bd) = none →
        main noopDoc queryParams = failResult (MsoError.objectNotFound bd)) ∧
      (∀ b, findBD noopTemplate (some bd) = some b →
        (main noopDoc queryParams).error = none ∧
        (main noopDoc queryParams).current = CurrentVal.obj b))) :=
  ⟨rfl, by decide, by decide,
    C5_query noopDoc queryParams noopSchema noopTemplate rfl (by decide) (by decide)⟩

/-- C6: for every well-formed invocation, an unknown schema name fails with
the schema-not-found error naming the offending schema, and a known schema
with an unknown template name fails with the template-not-found error whose
message enumerates the schema's available template names. -/
theorem C6_lookup_failures (doc : Document) (p : Params) (hreq : reqOk p) :
    (get_obj doc p.schema = none →
      main doc p = failResult (MsoError.schemaNotFound p.schema) ∧
      (MsoError.schemaNotFound p.schema).msg =
        "Provided schema \x27" ++ p.schema ++ "\x27 does not exist") ∧
    (∀ schema_obj, get_obj doc p.schema = some schema_obj →
      findTemplate schema_obj p.template = none →
      main doc p = failResult (MsoError.templateNotFound p.template
        (schema_obj.templates.map Template.name)) ∧
      (MsoError.templateNotFound p.template
          (schema_obj.templates.map Template.name)).msg =
        "Provided template \x27" ++ p.template ++ "\x27 does not exist. Existing templates: "
          ++ String.intercalate ", " (schema_obj.templates.map Template.name)) := by
  constructor
  · intro hs
    exact ⟨main_schema_missing doc p hreq hs, rfl⟩
  · intro schema_obj hs ht
    exact ⟨main_template_missing doc p schema_obj hreq hs ht, rfl⟩

/-- C6, witness: the sample schema exists but holds no template named
`Nowhere`. -/
def badTemplateParams : Params :=
  { schema := "Schema 1", template := "Nowhere", bd := some "BD1",
    vrf := some { name := "VRF1" }, state := MState.present }

theorem C6_witness :
    reqOk badTemplateParams ∧
    ((get_obj sampleDoc badTemplateParams.schema = none →
      main sampleDoc badTemplateParams =
        failResult (MsoError.schemaNotFound badTemplateParams.schema) ∧
      (MsoError.schemaNotFound badTemplateParams.schema).msg =
        "Provided schema \x27" ++ badTemplateParams.schema ++ "\x27 does not exist") ∧
    (∀ schema_obj, get_obj sampleDoc badTemplateParams.schema = some schema_obj →
      findTemplate schema_obj badTemplateParams.template = none →
      main sampleDoc badTemplateParams =
        failResult (MsoError.templateNotFound badTemplateParams.template
          (schema_obj.templates.map Template.name)) ∧
      (MsoError.templateNotFound badTemplateParams.template
          (schema_obj.templates.map Template.name)).msg =
        "Provided template \x27" ++ badTemplateParams.template
          ++ "\x27 does not exist. Existing templates: "
          ++ String.intercalate ", " (schema_obj.templates.map Template.name))) :=
  ⟨by decide, C6_lookup_failures sampleDoc badTemplateParams (by decide)⟩

/-- C8: on a successful `state=present` run, if the BD is new and no display
name was supplied, the sanitized payload's `displayName` defaults to the BD's
name; if the BD already exists no such defaulting happens — the reported
object's display name is the existing one updated by the explicitly supplied
value only. -/
theorem C8_display_name_default (doc : Document) (p : Params)
    (schema_obj : Schema) (tmpl : Template) (bd : String)
    (hst : p.state = MState.present)
    (hs : get_obj doc p.schema = some schema_obj)
    (ht : findTemplate schema_obj p.template = some tmpl)
    (hbd : p.bd = some bd)
    (herr : (main doc p).error = none) :
    (findBD tmpl (some bd) = none → p.display_name = none →
      ∃ b, (main doc p).current = CurrentVal.obj b ∧ b.displayName = some bd) ∧
    (∀ ex, findBD tmpl (some bd) = some ex →
      ∃ b, (main doc p).current = CurrentVal.obj b ∧
        b.displayName = updOpt ex.displayName p.display_name) := by
  obtain ⟨so, tm, bd2, vrf, vr, subs, hs2, ht2, hbd2, hvrf2, href, hsub, hmain⟩ :=
    main_present_success doc p hst herr
  have hso : schema_obj = so := Option.some.inj (hs.symm.trans hs2)
  subst hso
  have htm : tmpl = tm := Option.some.inj (ht.symm.trans ht2)
  subst htm
  have hb : bd = bd2 := Option.some.inj (hbd.symm.trans hbd2)
  subst hb
  rw [hmain]
  constructor
  · intro hex hdn
    refine ⟨_, rfl, ?_⟩
    simp [sanitize, hex, buildPayload, hdn]
  · intro ex hex
    refine ⟨_, rfl, ?_⟩
    simp [sanitize, hex, buildPayload]

/-- C8, witness: the sample run creates a new BD with no supplied display
name. -/
theorem C8_witness :
    sampleParams.state = MState.present ∧
    get_obj sampleDoc sampleParams.schema = some sampleSchema ∧
    findTemplate sampleSchema sampleParams.template = some sampleTemplate ∧
    sampleParams.bd = some "BD1" ∧
    (main sampleDoc sampleParams).error = none ∧
    ((findBD sampleTemplate (some "BD1") = none → sampleParams.display_name = none →
      ∃ b, (main sampleDoc sampleParams).current = CurrentVal.obj b ∧
        b.displayName = some "BD1") ∧
    (∀ ex, findBD sampleTemplate (some "BD1") = some ex →
      ∃ b, (main sampleDoc sampleParams).current = CurrentVal.obj b ∧
        b.displayName = updOpt ex.displayName sampleParams.display_name)) :=
  ⟨rfl, by decide, by decide, rfl, by decide,
    C8_display_name_default sampleDoc sampleParams sampleSchema sampleTemplate
      "BD1" rfl (by decide) (by decide) rfl (by decide)⟩

/-! ## Check mode (C7) -/

theorem stQuery_check (tmpl : Template) (bd : Option String) (ex : Option BDObj) :
    stQuery tmpl bd ex = { stQuery tmpl bd ex with submitted := none } := by
  cases bd with
  | none => rfl
  | some b => cases ex <;> rfl

theorem stAbsent_check (path template bd : String) (ex : Option BDObj) :
    stAbsent true path template bd ex =
      { stAbsent false path template bd ex with submitted := none } := by
  cases ex <;> rfl

theorem stPresent_check (doc : Document) (p₁ p₂ : Params)
    (hsub : p₁.subnets = p₂.subnets)
    (hdn : p₁.display_name = p₂.display_name)
    (hib : p₁.intersite_bum_traffic = p₂.intersite_bum_traffic)
    (how : p₁.optimize_wan_bandwidth = p₂.optimize_wan_bandwidth)
    (hls : p₁.layer2_stretch = p₂.layer2_stretch)
    (hlu : p₁.layer2_unknown_unicast = p₂.layer2_unknown_unicast)
    (hlm : p₁.layer3_multicast = p₂.layer3_multicast)
    (hcm1 : p₁.check_mode = true) (hcm2 : p₂.check_mode = false)
    (schema_id path template : String) (ex : Option BDObj) (bd : String)
    (vrf : Ref) :
    stPresent doc p₁ schema_id path template ex bd vrf =
      { stPresent doc p₂ schema_id path template ex bd vrf with
        submitted := none } := by
  unfold stPresent
  rw [hsub]
  rcases href : make_reference doc vrf schema_id template with e | vr <;>
    simp only [href]
  · rfl
  rcases hms : make_subnets p₂.subnets with e | subs <;> simp only [hms]
  · rfl
  have hbp : buildPayload p₁ bd ex vr subs = buildPayload p₂ bd ex vr subs := by
    simp [buildPayload, hdn, hib, how, hls, hlu, hlm]
  rw [hbp, hcm1, hcm2]
  rfl

/-- In every control-flow branch, a check-mode run produces exactly the
real run's result with the network submission blanked out. -/
theorem main_check (doc : Document) (p : Params) :
    main doc { p with check_mode := true } =
      { main doc { p with check_mode := false } with submitted := none } := by
  obtain ⟨psc, ptm, pbd, pdn, pib, pow, pls, plu, plm, pvrf, psub, pst, pcm⟩ := p
  cases pst with
  | query =>
    rcases hso : get_obj doc psc with _ | so
    · simp [main, hso, failResult]
    rcases hft : findTemplate so ptm with _ | tm
    · simp [main, hso, hft, failResult]
    have h1 : main doc (Params.mk psc ptm pbd pdn pib pow pls plu plm pvrf psub
        MState.query true) = stQuery tm pbd (findBD tm pbd) := by
      simp [main, hso, hft]
    have h2 : main doc (Params.mk psc ptm pbd pdn pib pow pls plu plm pvrf psub
        MState.query false) = stQuery tm pbd (findBD tm pbd) := by
      simp [main, hso, hft]
    rw [show ({ Params.mk psc ptm pbd pdn pib pow pls plu plm pvrf psub
        MState.query pcm with check_mode := true } : Params) = Params.mk psc ptm
        pbd pdn pib pow pls plu plm pvrf psub MState.query true from rfl]
    rw [show ({ Params.mk psc ptm pbd pdn pib pow pls plu plm pvrf psub
        MState.query pcm with check_mode := false } : Params) = Params.mk psc ptm
        pbd pdn pib pow pls plu plm pvrf psub MState.query false from rfl]
    rw [h1, h2]
    exact stQuery_check tm pbd (findBD tm pbd)
  | absent =>
    rcases pbd with _ | bd
    · simp [main, failResult]
    rcases hso : get_obj doc psc with _ | so
    · simp [main, hso, failResult]
    rcases hft : findTemplate so ptm with _ | tm
    · simp [main, hso, hft, failResult]
    have h1 : main doc (Params.mk psc ptm (some bd) pdn pib pow pls plu plm pvrf
        psub MState.absent true) =
        stAbsent true ("schemas/" ++ so.id) ptm bd (findBD tm (some bd)) := by
      simp [main, hso, hft]
    have h2 : main doc (Params.mk psc ptm (some bd) pdn pib pow pls plu plm pvrf
        psub MState.absent false) =
        stAbsent false ("schemas/" ++ so.id) ptm bd (findBD tm (some bd)) := by
      simp [main, hso, hft]
    rw [show ({ Params.mk psc ptm (some bd) pdn pib pow pls plu plm pvrf psub
        MState.absent pcm with check_mode := true } : Params) = Params.mk psc ptm
        (some bd) pdn pib pow pls plu plm pvrf psub MState.absent true from rfl]
    rw [show ({ Params.mk psc ptm (some bd) pdn pib pow pls plu plm pvrf psub
        MState.absent pcm with check_mode := false } : Params) = Params.mk psc ptm
        (some bd) pdn pib pow pls plu plm pvrf psub MState.absent false from rfl]
    rw [h1, h2]
    exact stAbsent_check ("schemas/" ++ so.id) ptm bd (findBD tm (some bd))
  | present =>
    rcases pbd with _ | bd
    · simp [main, failResult]
    rcases pvrf with _ | vrf
    · simp [main, failResult]
    rcases hso : get_obj doc psc with _ | so
    · simp [main, hso, failResult]
    rcases hft : findTemplate so ptm with _ | tm
    · simp [main, hso, hft, failResult]
    have h1 : main doc (Params.mk psc ptm (some bd) pdn pib pow pls plu plm
        (some vrf) psub MState.present true) =
        stPresent doc (Params.mk psc ptm (some bd) pdn pib pow pls plu plm
          (some vrf) psub MState.present true) so.id ("schemas/" ++ so.id) ptm
          (findBD tm (some bd)) bd vrf := by
      simp [main, hso, hft]
    have h2 : main doc (Params.mk psc ptm (some bd) pdn pib pow pls plu plm
        (some vrf) psub MState.present false) =
        stPresent doc (Params.mk psc ptm (some bd) pdn pib pow pls plu plm
          (some vrf) psub MState.present false) so.id ("schemas/" ++ so.id) ptm
          (findBD tm (some bd)) bd vrf := by
      simp [main, hso, hft]
    rw [show ({ Params.mk psc ptm (some bd) pdn pib pow pls plu plm (some vrf)
        psub MState.present pcm with check_mode := true } : Params) = Params.mk
        psc ptm (some bd) pdn pib pow pls plu plm (some vrf) psub MState.present
        true from rfl]
    rw [show ({ Params.mk psc ptm (some bd) pdn pib pow pls plu plm (some vrf)
        psub MState.present pcm with check_mode := false } : Params) = Params.mk
        psc ptm (some bd) pdn pib pow pls plu plm (some vrf) psub MState.present
        false from rfl]
    rw [h1, h2]
    exact stPresent_check doc
      (Params.mk psc ptm (some bd) pdn pib pow pls plu plm (some vrf) psub
        MState.present true)
      (Params.mk psc ptm (some bd) pdn pib pow pls plu plm (some vrf) psub
        MState.present false)
      rfl rfl rfl rfl rfl rfl rfl rfl rfl
      so.id ("schemas/" ++ so.id) ptm (findBD tm (some bd)) bd vrf

/-- C7: a dry-run (check-mode) invocation never submits over the network, and
its reported result — error, changed flag, previous and current state, and
the operation that would be applied — is identical to what the same
invocation without dry-run reports; the two results differ only in the
blanked-out submission. -/
theorem C7_check_mode (doc : Document) (p : Params) :
    (main doc { p with check_mode := true }).submitted = none ∧
    main doc { p with check_mode := true } =
      { main doc { p with check_mode := false } with submitted := none } := by
  refine ⟨?_, main_check doc p⟩
  rw [main_check doc p]

/-! ## Patch application lemmas (C9) -/

theorem find?_map_pres {α : Type} (f : α → α) (q : α → Bool)
    (hq : ∀ a, q (f a) = q a) (l : List α) :
    (l.map f).find? q = Option.map f (l.find? q) := by
  induction l with
  | nil => rfl
  | cons h t ih =>
    by_cases hh : q h = true
    · rw [List.map_cons, List.find?_cons_of_pos _ (by rw [hq]; exact hh),
        List.find?_cons_of_pos _ hh]
      rfl
    · rw [List.map_cons, List.find?_cons_of_neg _ (by rw [hq]; exact hh),
        List.find?_cons_of_neg _ hh, ih]

theorem patchTemplate_name_eq (tn : String) (ops : List PatchOp) (t : Template) :
    (patchTemplate tn ops t).name = t.name := by
  unfold patchTemplate
  split <;> rfl

theorem patchTemplate_vrfs_eq (tn : String) (ops : List PatchOp) (t : Template) :
    (patchTemplate tn ops t).vrfs = t.vrfs := by
  unfold patchTemplate
  split <;> rfl

theorem patchSchema_displayName_eq (sn tn : String) (ops : List PatchOp)
    (s : Schema) : (patchSchema sn tn ops s).displayName = s.displayName := by
  unfold patchSchema
  split <;> rfl

theorem patchSchema_id_eq (sn tn : String) (ops : List PatchOp) (s : Schema) :
    (patchSchema sn tn ops s).id = s.id := by
  unfold patchSchema
  split <;> rfl

theorem get_obj_patch (doc : Document) (sn tn : String) (ops : List PatchOp)
    (s : String) :
    get_obj (applyBDPatch doc sn tn ops) s =
      Option.map (patchSchema sn tn ops) (get_obj doc s) := by
  unfold get_obj applyBDPatch
  exact find?_map_pres _ _ (fun a => by rw [patchSchema_displayName_eq]) doc

theorem findById_patch (doc : Document) (sn tn : String) (ops : List PatchOp)
    (sid : String) :
    (applyBDPatch doc sn tn ops).find? (fun sc => sc.id == sid) =
      Option.map (patchSchema sn tn ops) (doc.find? (fun sc => sc.id == sid)) := by
  unfold applyBDPatch
  exact find?_map_pres _ _ (fun a => by rw [patchSchema_id_eq]) doc

theorem resolveRefSchemaId_patch (doc : Document) (sn tn : String)
    (ops : List PatchOp) (ref : Ref) (sid : String) :
    resolveRefSchemaId (applyBDPatch doc sn tn ops) ref sid =
      resolveRefSchemaId doc ref sid := by
  cases href : ref.schema with
  | none => simp [resolveRefSchemaId, href]
  | some s =>
    simp only [resolveRefSchemaId, href, get_obj_patch]
    cases hso : get_obj doc s <;> simp [patchSchema_id_eq]

theorem vrfs_find_map_patch (tn : String) (ops : List PatchOp)
    (l : List Template) (nm : String) :
    Option.map Template.vrfs
        ((l.map (patchTemplate tn ops)).find? (fun t => t.name == nm)) =
      Option.map Template.vrfs (l.find? (fun t => t.name == nm)) := by
  rw [find?_map_pres _ _ (fun a => by rw [patchTemplate_name_eq])]
  cases hft : l.find? (fun t => t.name == nm) <;> simp [patchTemplate_vrfs_eq]

theorem vrfsFindTemplate_patch (sn tn : String) (ops : List PatchOp) (s : Schema)
    (nm : String) :
    Option.map Template.vrfs
        ((patchSchema sn tn ops s).templates.find? (fun t => t.name == nm)) =
      Option.map Template.vrfs (s.templates.find? (fun t => t.name == nm)) := by
  unfold patchSchema
  split
  · exact vrfs_find_map_patch tn ops s.templates nm
  · rfl

theorem refTarget_patch (doc : Document) (sn tn : String) (ops : List PatchOp)
    (sid tname : String) :
    Option.map Template.vrfs (refTarget (applyBDPatch doc sn tn ops) sid tname) =
      Option.map Template.vrfs (refTarget doc sid tname) := by
  unfold refTarget
  rw [findById_patch]
  cases hsc : doc.find? (fun sc => sc.id == sid) with
  | none => rfl
  | some sc => exact vrfsFindTemplate_patch sn tn ops sc tname

/-- Applying a BD patch changes no schema display name, id, template name or
VRF list, so reference resolution is unaffected. -/
theorem make_reference_patch (doc : Document) (sn tn : String)
    (ops : List PatchOp) (ref : Ref) (schema_id template : String) :
    make_reference (applyBDPatch doc sn tn ops) ref schema_id template =
      make_reference doc ref schema_id template := by
  unfold make_reference
  rw [resolveRefSchemaId_patch]
  simp only [refTarget_patch]

theorem findTemplate_patch_hit (sn tn : String) (ops : List PatchOp) (s : Schema)
    (tmpl : Template)
    (hsn : (s.displayName == sn) = true)
    (ht : findTemplate s tn = some tmpl) :
    findTemplate (patchSchema sn tn ops s) tn =
      some { tmpl with bds := ops.foldl (applyOpToBds tn) tmpl.bds } := by
  have ht' : s.templates.find? (fun t => t.name == tn) = some tmpl := ht
  have hname := List.find?_some ht'
  have hps : patchSchema sn tn ops s =
      { s with templates := s.templates.map (patchTemplate tn ops) } := by
    simp [patchSchema, hsn]
  rw [hps]
  show (s.templates.map (patchTemplate tn ops)).find? (fun t => t.name == tn) = _
  rw [find?_map_pres _ _ (fun a => by rw [patchTemplate_name_eq]), ht']
  simp [patchTemplate, hname]

theorem find?_bd_append (bds : List BDObj) (bd : String) (v : BDObj)
    (hnone : bds.find? (fun x => x.name == bd) = none)
    (hv : v.name = bd) :
    (bds ++ [v]).find? (fun x => x.name == bd) = some v := by
  rw [List.find?_append, hnone]
  rw [List.find?_cons_of_pos _ (by simp [hv])]
  rfl

theorem find?_bd_replace (bds : List BDObj) (bd : String) (v : BDObj)
    (hv : v.name = bd)
    (hsome : bds.find? (fun x => x.name == bd) ≠ none) :
    (bds.map (fun b => if b.name == v.name then v else b)).find?
      (fun x => x.name == bd) = some v := by
  induction bds with
  | nil => simp [List.find?] at hsome
  | cons h t ih =>
    by_cases hh : h.name = bd
    · have h1 : (h.name == v.name) = true := by simp [hv, hh]
      rw [List.map_cons]
      simp only [h1, if_true]
      rw [List.find?_cons_of_pos _ (by simp [hv])]
    · have h1 : (h.name == v.name) = false := by simp [hv]; exact hh
      rw [List.map_cons]
      simp only [h1, Bool.false_eq_true, if_false]
      rw [List.find?_cons_of_neg _ (by simp; exact hh)]
      apply ih
      rw [List.find?_cons_of_neg _ (by simp; exact hh)] at hsome
      exact hsome

/-- Re-sanitizing against the object produced by a first sanitization, with
the payload rebuilt from the same parameters, is a fixed point: the second
proposed object equals the first. -/
theorem sanitize_stable (ex : Option BDObj) (p : Params) (bd vr : String)
    (subs : Option (List Subnet)) :
    sanitize (some (sanitize ex (buildPayload p bd ex vr subs)))
      (buildPayload p bd (some (sanitize ex (buildPayload p bd ex vr subs))) vr subs) =
    sanitize ex (buildPayload p bd ex vr subs) := by
  cases ex with
  | none =>
    cases hdn : p.display_name <;>
      simp [sanitize, buildPayload, hdn, updOpt_some, updOpt_none, updOpt_self,
        updOpt_updOpt]
  | some e =>
    cases hdn : p.display_name <;>
      simp [sanitize, buildPayload, hdn, updOpt_some, updOpt_none, updOpt_self,
        updOpt_updOpt]

/-- The second `present` run against the patched document: once the patched
template's lookup returns an object that re-sanitization leaves fixed, the
run succeeds and reports `changed=false`. -/
theorem run2_present (doc : Document) (p : Params) (schema_obj : Schema)
    (tmpl : Template) (bd : String) (vrf : Ref) (vr : String)
    (subs : Option (List Subnet)) (b1 : BDObj) (ops : List PatchOp)
    (hst : p.state = MState.present)
    (hbd : p.bd = some bd) (hvrf : p.vrf = some vrf)
    (hs : get_obj doc p.schema = some schema_obj)
    (ht : findTemplate schema_obj p.template = some tmpl)
    (href : make_reference doc vrf schema_obj.id p.template = Except.ok vr)
    (hsub : make_subnets p.subnets = Except.ok subs)
    (hfb2 : findBD { tmpl with bds := ops.foldl (applyOpToBds p.template) tmpl.bds }
      (some bd) = some b1)
    (hstab : sanitize (some b1) (buildPayload p bd (some b1) vr subs) = b1) :
    (main (applyBDPatch doc p.schema p.template ops) p).error = none ∧
    (main (applyBDPatch doc p.schema p.template ops) p).changed = false := by
  have hs' : doc.find? (fun s => s.displayName == p.schema) = some schema_obj := hs
  have hsn := List.find?_some hs'
  have hso2 : get_obj (applyBDPatch doc p.schema p.template ops) p.schema =
      some (patchSchema p.schema p.template ops schema_obj) := by
    rw [get_obj_patch, hs]
    rfl
  have hft2 := findTemplate_patch_hit p.schema p.template ops schema_obj tmpl hsn ht
  have href2 : make_reference (applyBDPatch doc p.schema p.template ops) vrf
      (patchSchema p.schema p.template ops schema_obj).id p.template =
      Except.ok vr := by
    rw [patchSchema_id_eq, make_reference_patch]
    exact href
  have hrun2 := main_present_eq (applyBDPatch doc p.schema p.template ops) p
    (patchSchema p.schema p.template ops schema_obj)
    { tmpl with bds := ops.foldl (applyOpToBds p.template) tmpl.bds } bd vrf
    hst hbd hvrf hso2 hft2
  rw [hfb2] at hrun2
  rw [stPresent_eq (applyBDPatch doc p.schema p.template ops) p
    (patchSchema p.schema p.template ops schema_obj).id
    ("schemas/" ++ (patchSchema p.schema p.template ops schema_obj).id)
    p.template (some b1) bd vrf vr subs href2 hsub] at hrun2
  rw [hstab] at hrun2
  constructor <;> rw [hrun2] <;> simp [exit_json, toCurrent]

/-- C9, counterexample: against a controller document whose BD already equals
the proposed payload, the first of two identical `state=present` invocations
already reports `changed=false`, not the claimed `changed=true`. -/
theorem C9_counterexample :
    noopParams.state = MState.present ∧
    noopParams.check_mode = false ∧
    (main noopDoc noopParams).error = none ∧
    (main noopDoc noopParams).changed = false := by
  decide

/-- C9, amended: for every successful non-check `state=present` invocation,
the patch is submitted, re-running the identical invocation against the
patched document succeeds with `changed=false`, and the first invocation
reports `changed=true` exactly when the proposed sanitized payload (the
reported `current`) differs from the existing state (the reported
`previous`) — in particular always when the BD did not yet exist. -/
theorem C9_idempotent (doc : Document) (p : Params) (schema_obj : Schema)
    (tmpl : Template) (bd : String)
    (hst : p.state = MState.present)
    (hcm : p.check_mode = false)
    (hs : get_obj doc p.schema = some schema_obj)
    (ht : findTemplate schema_obj p.template = some tmpl)
    (hbd : p.bd = some bd)
    (herr : (main doc p).error = none) :
    ∃ ops,
      (main doc p).submitted = some ("schemas/" ++ schema_obj.id, ops) ∧
      ((main doc p).changed = true ↔
        (main doc p).previous ≠ (main doc p).current) ∧
      (findBD tmpl (some bd) = none → (main doc p).changed = true) ∧
      (main (applyBDPatch doc p.schema p.template ops) p).error = none ∧
      (main (applyBDPatch doc p.schema p.template ops) p).changed = false := by
  obtain ⟨so, tm, bd2, vrf, vr, subs, hs2, ht2, hbd2, hvrf2, href, hsub, hmain⟩ :=
    main_present_success doc p hst herr
  have hso : schema_obj = so := Option.some.inj (hs.symm.trans hs2)
  subst hso
  have htm : tmpl = tm := Option.some.inj (ht.symm.trans ht2)
  subst htm
  have hb : bd = bd2 := Option.some.inj (hbd.symm.trans hbd2)
  subst hb
  rcases hex : findBD tmpl (some bd) with _ | e
  · -- the BD does not exist yet: an `add` patch is submitted
    rw [hex] at hmain
    refine ⟨[PatchOp.add ("/templates/" ++ p.template ++ "/bds/-")
      (sanitize none (buildPayload p bd none vr subs))], ?_, ?_, ?_, ?_, ?_⟩
    · rw [hmain]
      simp [exit_json, hcm, presentOps]
    · rw [hmain]
      simp [exit_json, toCurrent]
    · intro _
      rw [hmain]
      simp [exit_json, toCurrent]
    all_goals {
      have hex' : tmpl.bds.find? (fun x => x.name == bd) = none := hex
      have hfb2 : findBD { tmpl with bds := (List.foldl (applyOpToBds p.template)
            tmpl.bds [PatchOp.add ("/templates/" ++ p.template ++ "/bds/-")
              (sanitize none (buildPayload p bd none vr subs))]) } (some bd) =
          some (sanitize none (buildPayload p bd none vr subs)) := by
        show (tmpl.bds ++ [sanitize none (buildPayload p bd none vr subs)]).find?
          (fun x => x.name == bd) = some (sanitize none (buildPayload p bd none vr subs))
        exact find?_bd_append tmpl.bds bd _ hex' rfl
      have h2 := run2_present doc p schema_obj tmpl bd vrf vr subs
        (sanitize none (buildPayload p bd none vr subs))
        [PatchOp.add ("/templates/" ++ p.template ++ "/bds/-")
          (sanitize none (buildPayload p bd none vr subs))]
        hst hbd hvrf2 hs ht href hsub hfb2 (sanitize_stable none p bd vr subs)
      first
        | exact h2.1
        | exact h2.2 }
  · -- the BD exists: a `replace` patch is submitted
    rw [hex] at hmain
    refine ⟨[PatchOp.replace ("/templates/" ++ p.template ++ "/bds/" ++ bd)
      (sanitize (some e) (buildPayload p bd (some e) vr subs))], ?_, ?_, ?_, ?_, ?_⟩
    · rw [hmain]
      simp [exit_json, hcm, presentOps]
    · rw [hmain]
      simp [exit_json, toCurrent]
    · intro hcontra
      simp at hcontra
    all_goals {
      have hfb2 : findBD { tmpl with bds := (List.foldl (applyOpToBds p.template)
            tmpl.bds [PatchOp.replace ("/templates/" ++ p.template ++ "/bds/" ++ bd)
              (sanitize (some e) (buildPayload p bd (some e) vr subs))]) } (some bd) =
          some (sanitize (some e) (buildPayload p bd (some e) vr subs)) := by
        show (tmpl.bds.map (fun b => if b.name ==
            (sanitize (some e) (buildPayload p bd (some e) vr subs)).name
            then sanitize (some e) (buildPayload p bd (some e) vr subs) else b)).find?
          (fun x => x.name == bd) =
          some (sanitize (some e) (buildPayload p bd (some e) vr subs))
        refine find?_bd_replace tmpl.bds bd _ rfl ?_
        intro hno
        rw [show tmpl.bds.find? (fun x => x.name == bd) =
          findBD tmpl (some bd) from rfl, hex] at hno
        cases hno
      have h2 := run2_present doc p schema_obj tmpl bd vrf vr subs
        (sanitize (some e) (buildPayload p bd (some e) vr subs))
        [PatchOp.replace ("/templates/" ++ p.template ++ "/bds/" ++ bd)
          (sanitize (some e) (buildPayload p bd (some e) vr subs))]
        hst hbd hvrf2 hs ht href hsub hfb2 (sanitize_stable (some e) p bd vr subs)
      first
        | exact h2.1
        | exact h2.2 }

/-- C9, witness for the amended theorem: creating `BD1` in the sample
document, then re-running the identical invocation. -/
theorem C9_witness :
    sampleParams.state = MState.present ∧
    sampleParams.check_mode = false ∧
    get_obj sampleDoc sampleParams.schema = some sampleSchema ∧
    findTemplate sampleSchema sampleParams.template = some sampleTemplate ∧
    sampleParams.bd = some "BD1" ∧
    (main sampleDoc sampleParams).error = none ∧
    (∃ ops,
      (main sampleDoc sampleParams).submitted =
        some ("schemas/" ++ sampleSchema.id, ops) ∧
      ((main sampleDoc sampleParams).changed = true ↔
        (main sampleDoc sampleParams).previous ≠
          (main sampleDoc sampleParams).current) ∧
      (findBD sampleTemplate (some "BD1") = none →
        (main sampleDoc sampleParams).changed = true) ∧
      (main (applyBDPatch sampleDoc sampleParams.schema sampleParams.template ops)
        sampleParams).error = none ∧
      (main (applyBDPatch sampleDoc sampleParams.schema sampleParams.template ops)
        sampleParams).changed = false) :=
  ⟨rfl, rfl, by decide, by decide, rfl, by decide,
    C9_idempotent sampleDoc sampleParams sampleSchema sampleTemplate "BD1"
      rfl rfl (by decide) (by decide) rfl (by decide)⟩

/-! ## First-match lookup (C10) -/

theorem find?_first_aux {α : Type} (q : α → Bool) (l : List α) (i : Nat)
    (hi : i < l.length)
    (hq : q (l.get ⟨i, hi⟩) = true)
    (hfirst : ∀ j (hj : j < l.length), j < i → q (l.get ⟨j, hj⟩) = false) :
    l.find? q = some (l.get ⟨i, hi⟩) := by
  induction l generalizing i with
  | nil => cases hi
  | cons h t ih =>
    cases i with
    | zero =>
      rw [List.find?_cons_of_pos _ (show q h = true from hq)]
      rfl
    | succ n =>
      have hh : q h = false :=
        hfirst 0 (Nat.succ_pos _) (Nat.succ_pos n)
      rw [List.find?_cons_of_neg _ (by simp [hh])]
      exact ih n (Nat.lt_of_succ_lt_succ hi) hq
        (fun j hj hji => hfirst (j + 1) (Nat.succ_lt_succ hj) (Nat.succ_lt_succ hji))

/-- C10: when the target template's bd list holds several entries with the
requested name, the lookup selects the first (lowest-index) one: it is the
existing object, the query output returns it, and the diffing/patch building
of the mutating states start from it (`mso.previous`). -/
theorem C10_first_match (doc : Document) (p : Params) (schema_obj : Schema)
    (tmpl : Template) (bd : String) (i : Nat)
    (hs : get_obj doc p.schema = some schema_obj)
    (ht : findTemplate schema_obj p.template = some tmpl)
    (hbd : p.bd = some bd)
    (hi : i < tmpl.bds.length)
    (hname : (tmpl.bds.get ⟨i, hi⟩).name = bd)
    (hfirst : ∀ j (hj : j < tmpl.bds.length), j < i →
      (tmpl.bds.get ⟨j, hj⟩).name ≠ bd) :
    findBD tmpl (some bd) = some (tmpl.bds.get ⟨i, hi⟩) ∧
    (p.state = MState.query →
      (main doc p).current = CurrentVal.obj (tmpl.bds.get ⟨i, hi⟩)) ∧
    ((p.state = MState.absent ∨ p.state = MState.present) →
      (main doc p).error = none →
      (main doc p).previous = CurrentVal.obj (tmpl.bds.get ⟨i, hi⟩)) := by
  have hfb : findBD tmpl (some bd) = some (tmpl.bds.get ⟨i, hi⟩) := by
    show tmpl.bds.find? (fun x => x.name == bd) = _
    apply find?_first_aux
    · simp only [beq_iff_eq]
      exact hname
    · intro j hj hji
      simp only [beq_eq_false_iff_ne, ne_eq]
      exact hfirst j hj hji
  refine ⟨hfb, ?_, ?_⟩
  · intro hst
    rw [main_query_eq doc p schema_obj tmpl hst hs ht, hbd, hfb]
    simp [stQuery, exit_json]
  · intro hstm herr
    cases hstm with
    | inl habs =>
      rw [main_absent_eq doc p schema_obj tmpl bd habs hbd hs ht, hfb]
      simp [stAbsent, exit_json]
    | inr hpres =>
      obtain ⟨so, tm, bd2, vrf, vr, subs, hs2, ht2, hbd2, hvrf2, href, hsub, hmain⟩ :=
        main_present_success doc p hpres herr
      have hso : schema_obj = so := Option.some.inj (hs.symm.trans hs2)
      subst hso
      have htm : tmpl = tm := Option.some.inj (ht.symm.trans ht2)
      subst htm
      have hb : bd = bd2 := Option.some.inj (hbd.symm.trans hbd2)
      subst hb
      rw [hmain, hfb]
      simp [exit_json, toCurrent]

/-- C10, witness: querying a template holding two entries named `BD1` returns
the first one. -/
def dupParams : Params :=
  { schema := "Schema 1", template := "Template 1", bd := some "BD1",
    state := MState.query }

theorem C10_witness :
    get_obj dupDoc dupParams.schema = some dupSchema ∧
    findTemplate dupSchema dupParams.template = some dupTemplate ∧
    (findBD dupTemplate (some "BD1") =
      some (dupTemplate.bds.get ⟨0, by decide⟩) ∧
    (dupParams.state = MState.query →
      (main dupDoc dupParams).current =
        CurrentVal.obj (dupTemplate.bds.get ⟨0, by decide⟩)) ∧
    ((dupParams.state = MState.absent ∨ dupParams.state = MState.present) →
      (main dupDoc dupParams).error = none →
      (main dupDoc dupParams).previous =
        CurrentVal.obj (dupTemplate.bds.get ⟨0, by decide⟩))) :=
  ⟨by decide, by decide,
    C10_first_match dupDoc dupParams dupSchema dupTemplate "BD1" 0
      (by decide) (by decide) rfl (by decide) (by decide) (by decide)⟩

end MsoBD
